import Mathlib

/-!
# handle_failure : a verification development

Shallow embedding of the header-only library `handle_failure`
(`core.hpp`, `error_traits.hpp`, `unwrap.hpp`) and of its test driver
(`tests/main.cpp`).

Modelling conventions

* `std::optional<T>` is `Option T`; `std::pair` and `std::tuple` are the
  structures `pair`, `tuple2`, `tuple3`, `tuple4` below.
* `std::error_code` is a numeric value together with its category; a category
  is the pair of its `name()` and of its `message(int)` function, both of which
  come from the standard library and are therefore left arbitrary.
* A call that may throw returns a `handler_result`; an execution of the
  chaining operator returns the list of the calls it performed (`event`)
  together with the way it ended (`outcome`).
* Undefined behaviour (dereferencing an empty optional) is the `none` result of
  `extract_value`, reported as `outcome.undefined`.
* The argument pack `Args...` of a failure context is a list; string-like
  values written to a stream are the strings they print.
-/

namespace hf

/-! ## Standard-library data -/

/-- The category of a `std::error_code` : its `name()` and its `message(int)`. -/
structure error_category where
  name : String
  message : Int → String

/-- A `std::error_code` : a numeric value and the category it belongs to. -/
structure error_code where
  value : Int
  category : error_category

/-- The member `std::error_code::message()`. -/
def error_code.message (err : error_code) : String :=
  err.category.message err.value

/-- The conversion `explicit operator bool` of `std::error_code` : the value is not zero. -/
def error_code.to_bool (err : error_code) : Bool :=
  err.value != 0

/-- The `std::pair<A, B>` with its two members. -/
structure pair (A B : Type) where
  first : A
  second : B
deriving DecidableEq, Repr

/-- The `std::tuple<A, B>`. -/
structure tuple2 (A B : Type) where
  get0 : A
  get1 : B
deriving DecidableEq, Repr

/-- The `std::tuple<A, B, C>`. -/
structure tuple3 (A B C : Type) where
  get0 : A
  get1 : B
  get2 : C
deriving DecidableEq, Repr

/-- The `std::tuple<A, B, C, D>`. -/
structure tuple4 (A B C D : Type) where
  get0 : A
  get1 : B
  get2 : C
  get3 : D
deriving DecidableEq, Repr

/-- What `std::get<0>` and `std::get<1>` do on a two-field class template
(the template template parameter `Tuple` of `value_and_errc`). -/
structure tuple_like (Tuple : Type → Type → Type) where
  get0 : {A B : Type} → Tuple A B → A
  get1 : {A B : Type} → Tuple A B → B

/-- Access to `std::pair` through `std::get`. -/
def pair_like : tuple_like pair where
  get0 := fun p => p.first
  get1 := fun p => p.second

/-- Access to a two-field `std::tuple` through `std::get`. -/
def tuple2_like : tuple_like tuple2 where
  get0 := fun t => t.get0
  get1 := fun t => t.get1

/-! ## core.hpp -/

/-- The structure `error_traits<T>` : the four members a specialization gives.
`extract_value` exists only when `contains_value` is true; its result is `none`
where the C++ call has undefined behaviour. -/
structure error_traits (T P : Type) where
  contains_value : Bool
  extract_value : contains_value = true → T → Option P
  indicates_error : T → Bool
  error_info : T → String

/-- How a call of a failure handler ends : it returns, or it throws. -/
inductive handler_result (ε : Type) where
  | returns : handler_result ε
  | throws (e : ε) : handler_result ε
deriving DecidableEq, Repr

/-- A failure handler : called as `handler(error_info, args...)`. -/
abbrev failure_handler (α ε : Type) : Type :=
  String → List α → handler_result ε

/-- The struct `detail::failure_context_t` : a handler and the tuple of the
captured arguments. -/
structure failure_context_t (α ε : Type) where
  handler : failure_handler α ε
  args : List α

/-- The calls an execution of the chaining operator performs. -/
inductive event (α : Type) where
  | indicates_error (result : Bool) : event α
  | handler (info : String) (args : List α) : event α
  | extract_value : event α
deriving DecidableEq, Repr

/-- How an execution of the chaining operator ends. -/
inductive outcome (ε P : Type) where
  | returned (payload : P) : outcome ε P
  | returned_void : outcome ε P
  | thrown (e : ε) : outcome ε P
  | undefined : outcome ε P
deriving DecidableEq, Repr

/-- An execution : the calls performed, in order, and the way it ended. -/
structure execution (α ε P : Type) where
  trace : List (event α)
  result : outcome ε P
deriving DecidableEq, Repr

/-- The index sequence `std::make_index_sequence<N>` : `0, 1, ..., N-1`. -/
def make_index_sequence (n : Nat) : List (Fin n) :=
  List.finRange n

/-- The expansion `std::forward<Args>(std::get<Is>(context))...` over the index
sequence `Is...`. -/
def forward_args {α : Type} (context : List α) (seq : List (Fin context.length)) : List α :=
  seq.map context.get

/-- The member `failure_context_t::trigger_failure` : calls
`handler(error_traits<T>::error_info(value), args...)`.  Returns the call
performed and the way it ended. -/
def failure_context_t.trigger_failure {T P α ε : Type} (self : failure_context_t α ε)
    (traits : error_traits T P) (value : T) : event α × handler_result ε :=
  let handler := self.handler
  let context := self.args
  let seq := make_index_sequence context.length
  let info := traits.error_info value
  let args := forward_args context seq
  (event.handler info args, handler info args)

/-- The tail of `operator>>` : `if constexpr (traits::contains_value) return
traits::extract_value(std::move(value));`, after the calls in `trace`. -/
def extract_step {T P α ε : Type} (traits : error_traits T P) (value : T)
    (trace : List (event α)) : execution α ε P :=
  if h : traits.contains_value = true then
    match traits.extract_value h value with
    | some payload => ⟨trace ++ [event.extract_value], outcome.returned payload⟩
    | none => ⟨trace ++ [event.extract_value], outcome.undefined⟩
  else
    ⟨trace, outcome.returned_void⟩

/-- The chaining operator `detail::operator>>` : `value >> context`. -/
def operator_shr {T P α ε : Type} (traits : error_traits T P) (value : T)
    (context : failure_context_t α ε) : execution α ε P :=
  if traits.indicates_error value then
    match context.trigger_failure traits value with
    | (call, handler_result.throws e) =>
      ⟨[event.indicates_error true, call], outcome.thrown e⟩
    | (call, handler_result.returns) =>
      extract_step traits value [event.indicates_error true, call]
  else
    extract_step traits value [event.indicates_error false]

/-- The function `handle_failure(handler, args...)`. -/
def handle_failure {α ε : Type} (handler : failure_handler α ε) (args : List α) :
    failure_context_t α ε :=
  { handler := handler, args := args }

/-- The handler calls of a trace, in order : the pairs `(error_info, args...)`. -/
def handler_calls {α : Type} : List (event α) → List (String × List α)
  | [] => []
  | event.handler info args :: rest => (info, args) :: handler_calls rest
  | _ :: rest => handler_calls rest

/-- The number of `extract_value` calls of a trace. -/
def extract_calls {α : Type} : List (event α) → Nat
  | [] => 0
  | event.extract_value :: rest => extract_calls rest + 1
  | _ :: rest => extract_calls rest

/-- Whether an execution ended with an exception. -/
def outcome.is_thrown {ε P : Type} : outcome ε P → Bool
  | outcome.thrown _ => true
  | _ => false

/-! ## error_traits.hpp -/

/-- The specialization `error_traits<std::optional<T>>`. -/
def error_traits_optional (T : Type) : error_traits (Option T) T where
  contains_value := true
  extract_value := fun _ opt => opt
  indicates_error := fun opt => !opt.isSome
  error_info := fun _ => "Tried to unwrap empty optional"

/-- The function `detail::concatene_impl` : appends every view to an empty string. -/
def concatene_impl (svs : List String) : String :=
  svs.foldl (fun res sv => res ++ sv) ""

/-- The function `detail::concatene`. -/
def concatene (strs : List String) : String :=
  concatene_impl strs

/-- The function `detail::errc_indicates_error`. -/
def errc_indicates_error (err : error_code) : Bool :=
  err.to_bool

/-- The function `detail::errc_info`. -/
def errc_info (err : error_code) : String :=
  concatene ["From error category '", err.category.name, "' : ", err.message]

/-- The specialization `error_traits<std::error_code>` : it has no `extract_value`. -/
def error_traits_error_code : error_traits error_code Empty where
  contains_value := false
  extract_value := fun h _ => absurd h (by decide)
  indicates_error := fun errc => errc_indicates_error errc
  error_info := fun errc => errc_info errc

/-- The struct `detail::value_and_errc<Tuple, T>`. -/
def value_and_errc {Tuple : Type → Type → Type} (like : tuple_like Tuple) (T : Type) :
    error_traits (Tuple T error_code) T where
  contains_value := true
  extract_value := fun _ tuple => some (like.get0 tuple)
  indicates_error := fun tuple => errc_indicates_error (like.get1 tuple)
  error_info := fun tuple => errc_info (like.get1 tuple)

/-- The struct `detail::values_and_errc<std::tuple, T1, T2>` : the index
sequence of `extract_value_impl` is `0, 1` and `sizeof...(Ts)` is `2`. -/
def values_and_errc2 (T1 T2 : Type) :
    error_traits (tuple3 T1 T2 error_code) (tuple2 T1 T2) where
  contains_value := true
  extract_value := fun _ tuple => some ⟨tuple.get0, tuple.get1⟩
  indicates_error := fun tuple => errc_indicates_error tuple.get2
  error_info := fun tuple => errc_info tuple.get2

/-- The struct `detail::values_and_errc<std::tuple, T1, T2, T3>` : the index
sequence of `extract_value_impl` is `0, 1, 2` and `sizeof...(Ts)` is `3`. -/
def values_and_errc3 (T1 T2 T3 : Type) :
    error_traits (tuple4 T1 T2 T3 error_code) (tuple3 T1 T2 T3) where
  contains_value := true
  extract_value := fun _ tuple => some ⟨tuple.get0, tuple.get1, tuple.get2⟩
  indicates_error := fun tuple => errc_indicates_error tuple.get3
  error_info := fun tuple => errc_info tuple.get3

/-- The specialization `error_traits<std::pair<T, std::error_code>>`. -/
def error_traits_pair (T : Type) : error_traits (pair T error_code) T :=
  value_and_errc pair_like T

/-- The specialization `error_traits<std::tuple<T, std::error_code>>`. -/
def error_traits_tuple2 (T : Type) : error_traits (tuple2 T error_code) T :=
  value_and_errc tuple2_like T

/-- The specialization `error_traits<std::tuple<T1, T2, std::error_code>>`. -/
def error_traits_tuple3 (T1 T2 : Type) :
    error_traits (tuple3 T1 T2 error_code) (tuple2 T1 T2) :=
  values_and_errc2 T1 T2

/-- The specialization `error_traits<std::tuple<T1, T2, T3, std::error_code>>`. -/
def error_traits_tuple4 (T1 T2 T3 : Type) :
    error_traits (tuple4 T1 T2 T3 error_code) (tuple3 T1 T2 T3) :=
  values_and_errc3 T1 T2 T3

/-! ## unwrap.hpp -/

/-- The exception class `unwrap_error` : a `std::runtime_error` with its message. -/
structure unwrap_error where
  what : String
deriving DecidableEq, Repr

/-- A context producer : a callable which, given the recorder, calls it some
number of times, each time with a pack of fragments.  It is given by the
packs it passes, in order. -/
structure context_producer where
  calls : List (List String)
deriving DecidableEq, Repr

/-- Calling a context producer with a recorder acting on the stream `ss`. -/
def context_producer.invoke (f : context_producer)
    (recorder : List String → String → String) (ss : String) : String :=
  f.calls.foldl (fun stream strs => recorder strs stream) ss

/-- The fold expression `(ss << ... << strs)`. -/
def stream_all (ss : String) (strs : List String) : String :=
  strs.foldl (fun stream str => stream ++ str) ss

/-- The lambda the formatter passes to the context producer. -/
def recorder (strs : List String) (ss : String) : String :=
  if strs.length > 0 then
    let ss := ss ++ "Context info : "
    let ss := stream_all ss strs
    ss ++ "."
  else
    ss

/-- The call operator `detail::formatter::operator()(info, f)` : it never
returns, the result is the exception it throws. -/
def formatter_call (info : String) (f : context_producer) : unwrap_error :=
  let ss := ""
  let ss := ss ++ "Error message : " ++ info ++ ". "
  let ss := f.invoke recorder ss
  { what := ss }

/-- The function object `detail::formatter` as a failure handler.  Its call
operator takes the description and exactly one context producer; with another
number of arguments the call does not compile, and no producer is run here. -/
def formatter : failure_handler context_producer unwrap_error
  | info, [f] => handler_result.throws (formatter_call info f)
  | info, _ => handler_result.throws (formatter_call info ⟨[]⟩)

/-- The function `unwrap(f)`. -/
def unwrap (f : context_producer) : failure_context_t context_producer unwrap_error :=
  handle_failure formatter [f]

/-- The function `unwrap()` : its producer `[] (auto&&) {}` never calls the recorder. -/
def unwrap_default : failure_context_t context_producer unwrap_error :=
  unwrap ⟨[]⟩

/-- The macro `HF_UNWRAP(...)` : its producer calls the recorder once, with the
arguments of the macro. -/
def HF_UNWRAP (va_args : List String) : failure_context_t context_producer unwrap_error :=
  unwrap ⟨[va_args]⟩

/-! ## unwrap.hpp, with the calls of the producers observed

A handler is a function, so what it calls leaves no mark on its result.  To
observe the calls of the context producers, the formatter is run once more by
the same `operator_shr`, with one addition : every call of a producer is noted
in a log, and the log leaves the handler with the exception it throws. -/

/-- The stream of the formatter under observation : the text written so far and
the producers called so far, in order. -/
structure logged_stream where
  ss : String
  invoked : List context_producer
deriving DecidableEq, Repr

/-- Calling a context producer with a recorder, the call being noted : the
stream becomes what `invoke` gives and the producer joins those called. -/
def context_producer.invoke_logged (f : context_producer)
    (recorder : List String → String → String) (st : logged_stream) : logged_stream :=
  { ss := f.invoke recorder st.ss, invoked := st.invoked ++ [f] }

/-- The call operator `detail::formatter::operator()(info, f)` under observation :
the same three statements as `formatter_call`, the call `f(...)` being noted;
the result is the exception thrown and the producers called. -/
def formatter_call_logged (info : String) (f : context_producer) :
    unwrap_error × List context_producer :=
  let st : logged_stream := { ss := "", invoked := [] }
  let st : logged_stream := { st with ss := st.ss ++ "Error message : " ++ info ++ ". " }
  let st := f.invoke_logged recorder st
  ({ what := st.ss }, st.invoked)

/-- The function object `detail::formatter` under observation, as a failure
handler : what it throws carries the producers it called.  As for `formatter`,
with another number of arguments than one no producer is run. -/
def formatter_logged :
    failure_handler context_producer (unwrap_error × List context_producer)
  | info, [f] => handler_result.throws (formatter_call_logged info f)
  | info, _ => handler_result.throws (formatter_call info ⟨[]⟩, [])

/-- The function `unwrap(f)` with the formatter under observation. -/
def unwrap_logged (f : context_producer) :
    failure_context_t context_producer (unwrap_error × List context_producer) :=
  handle_failure formatter_logged [f]

/-- Forgetting the log of a handler result. -/
def handler_result.erase_log {ε L : Type} : handler_result (ε × L) → handler_result ε
  | handler_result.returns => handler_result.returns
  | handler_result.throws e => handler_result.throws e.1

/-- Forgetting the log of an outcome. -/
def outcome.erase_log {ε L P : Type} : outcome (ε × L) P → outcome ε P
  | outcome.returned payload => outcome.returned payload
  | outcome.returned_void => outcome.returned_void
  | outcome.thrown e => outcome.thrown e.1
  | outcome.undefined => outcome.undefined

/-- Forgetting the log of an execution : same calls, same end. -/
def execution.erase_log {α ε L P : Type} (ex : execution α (ε × L) P) : execution α ε P :=
  { trace := ex.trace, result := ex.result.erase_log }

/-- The producers called during an execution with the formatter under
observation : the log that comes out with the exception; an execution that does
not end with an exception brings no log out. -/
def invoked_producers {P : Type}
    (ex : execution context_producer (unwrap_error × List context_producer) P) :
    List context_producer :=
  match ex.result with
  | outcome.thrown e => e.2
  | _ => []

/-! ## The message of the unwrap handler, as the specification words it -/

/-- The text the specification gives for the recorder calls `l1..lk` of a
producer : for each `li` in order which is not empty, `Context info : `
followed by the fragments of `li` concatenated and by a period; an empty `li`
gives nothing. -/
def context_sections_spec (calls : List (List String)) : String :=
  String.join ((calls.filter (fun strs => !strs.isEmpty)).map
    (fun strs => "Context info : " ++ String.join strs ++ "."))

/-- The message the specification gives for the description `d` and the recorder
calls `l1..lk` : `Error message : d. ` followed by the sections. -/
def unwrap_message_spec (d : String) (calls : List (List String)) : String :=
  "Error message : " ++ d ++ ". " ++ context_sections_spec calls

/-! ## tests/main.cpp -/

/-- The category `std::system_category()` : its name is `system` and its messages
are those of the operating system, left arbitrary. -/
def system_category (strerror : Int → String) : error_category where
  name := "system"
  message := strerror

/-- A default-constructed `std::error_code` : value zero, system category. -/
def error_code_default (strerror : Int → String) : error_code :=
  { value := 0, category := system_category strerror }

/-- The constant `fail_errc` of the tests. -/
def fail_errc (strerror : Int → String) : error_code :=
  { value := 1, category := system_category strerror }

/-- The function `returns_error` of the tests, with the counter `case_count`
passed in and out. -/
def returns_error {T P : Type} (traits : error_traits T P) (f : Unit → T)
    (case_count : Int) : Bool × Int :=
  let case_count := case_count + 1
  match (operator_shr traits (f ())
      (HF_UNWRAP ["Failure in case ", toString case_count])).result with
  | outcome.thrown _ => (true, case_count)
  | _ => (false, case_count)

/-- The function `main` of the tests : the value it returns, `0` when every case
behaves as expected.  The operands of `||` are evaluated left to right until
one is true. -/
def main (strerror : Int → String) : Int :=
  let ok := error_code_default strerror
  let ko := fail_errc strerror
  let r1 := returns_error (error_traits_optional Int) (fun _ => some 1) 0
  if r1.1 then 1 else
  let r2 := returns_error (error_traits_optional Int) (fun _ => none) r1.2
  if !r2.1 then 1 else
  let r3 := returns_error (error_traits_pair Int) (fun _ => ⟨0, ok⟩) r2.2
  if r3.1 then 1 else
  let r4 := returns_error (error_traits_pair Int) (fun _ => ⟨0, ko⟩) r3.2
  if !r4.1 then 1 else
  let r5 := returns_error (error_traits_tuple2 Int) (fun _ => ⟨0, ok⟩) r4.2
  if r5.1 then 1 else
  let r6 := returns_error (error_traits_tuple2 Int) (fun _ => ⟨0, ko⟩) r5.2
  if !r6.1 then 1 else
  let r7 := returns_error (error_traits_tuple3 Int Int) (fun _ => ⟨0, 0, ok⟩) r6.2
  if r7.1 then 1 else
  let r8 := returns_error (error_traits_tuple3 Int Int) (fun _ => ⟨0, 0, ko⟩) r7.2
  if !r8.1 then 1 else
  0

/-! ## Lemmas on the chaining operator -/

/-- Expanding the argument pack over its full index sequence gives the pack back. -/
theorem forward_args_index_sequence {α : Type} (context : List α) :
    forward_args context (make_index_sequence context.length) = context := by
  unfold forward_args make_index_sequence
  exact List.finRange_map_get context

/-- The call `trigger_failure` performs : the handler on the description of the
value and on the captured arguments. -/
theorem trigger_failure_eq {T P α ε : Type} (context : failure_context_t α ε)
    (traits : error_traits T P) (value : T) :
    context.trigger_failure traits value =
      (event.handler (traits.error_info value) context.args,
        context.handler (traits.error_info value) context.args) := by
  unfold failure_context_t.trigger_failure
  simp only [forward_args_index_sequence]

/-- The handler calls of a trace ending in a payload extraction. -/
theorem handler_calls_append_extract {α : Type} (trace : List (event α)) :
    handler_calls (trace ++ [event.extract_value]) = handler_calls trace := by
  induction trace with
  | nil => rfl
  | cons e rest ih => cases e <;> simp [handler_calls, ih]

/-- The handler calls of the trace `extract_step` returns are those it was given. -/
theorem handler_calls_extract_step {T P α ε : Type} (traits : error_traits T P) (value : T)
    (trace : List (event α)) :
    handler_calls (extract_step traits value trace : execution α ε P).trace =
      handler_calls trace := by
  unfold extract_step
  split
  · split <;> exact handler_calls_append_extract trace
  · rfl

/-- The tail of the operator never ends with an exception. -/
theorem extract_step_not_thrown {T P α ε : Type} (traits : error_traits T P) (value : T)
    (trace : List (event α)) :
    (extract_step traits value trace : execution α ε P).result.is_thrown = false := by
  unfold extract_step
  split
  · split <;> rfl
  · rfl

/-- On a value which is not an error, the operator only tests the value and
extracts its payload. -/
theorem operator_shr_success {T P α ε : Type} (traits : error_traits T P) (value : T)
    (context : failure_context_t α ε) (payload : P)
    (hc : traits.contains_value = true)
    (hv : traits.indicates_error value = false)
    (hp : traits.extract_value hc value = some payload) :
    operator_shr traits value context =
      ⟨[event.indicates_error false, event.extract_value], outcome.returned payload⟩ := by
  unfold operator_shr extract_step
  simp [hv, hc, hp]

/-- On a value which is not an error, the handler is not called and the payload
is returned. -/
theorem operator_shr_success_calls {T P α ε : Type} (traits : error_traits T P) (value : T)
    (context : failure_context_t α ε) (payload : P)
    (hc : traits.contains_value = true)
    (hv : traits.indicates_error value = false)
    (hp : traits.extract_value hc value = some payload) :
    handler_calls (operator_shr traits value context).trace = [] ∧
      (operator_shr traits value context).result = outcome.returned payload := by
  rw [operator_shr_success traits value context payload hc hv hp]
  exact ⟨rfl, rfl⟩

/-- On a value which is not an error, of a shape without payload, the operator
only tests the value and returns nothing. -/
theorem operator_shr_success_void {T P α ε : Type} (traits : error_traits T P) (value : T)
    (context : failure_context_t α ε)
    (hc : traits.contains_value = false)
    (hv : traits.indicates_error value = false) :
    operator_shr traits value context =
      ⟨[event.indicates_error false], outcome.returned_void⟩ := by
  unfold operator_shr extract_step
  simp [hv, hc]

/-- On a value which is an error, the handler is called once, on the description
of the value and on the captured arguments. -/
theorem operator_shr_failure_calls {T P α ε : Type} (traits : error_traits T P) (value : T)
    (context : failure_context_t α ε)
    (hv : traits.indicates_error value = true) :
    handler_calls (operator_shr traits value context).trace =
      [(traits.error_info value, context.args)] := by
  unfold operator_shr
  rw [if_pos hv, trigger_failure_eq]
  cases context.handler (traits.error_info value) context.args with
  | returns => simp [handler_calls_extract_step, handler_calls]
  | throws e => simp [handler_calls]

/-- On a value which is an error and with a handler that throws, the operator
ends with the exception of the handler. -/
theorem operator_shr_failure_throws {T P α ε : Type} (traits : error_traits T P) (value : T)
    (context : failure_context_t α ε) (e : ε)
    (hv : traits.indicates_error value = true)
    (hh : context.handler (traits.error_info value) context.args = handler_result.throws e) :
    operator_shr traits value context =
      ⟨[event.indicates_error true,
          event.handler (traits.error_info value) context.args], outcome.thrown e⟩ := by
  unfold operator_shr
  rw [if_pos hv, trigger_failure_eq, hh]

/-! ## The chaining operator on the built-in shapes -/

/-- C1 : for each built-in shape that carries a payload (optional, pair, tuples
of two, three and four fields), for every value `v` which is not an error and
every bundle `handle_failure(handler, args...)`, the execution of
`v >> handle_failure(handler, args...)` contains no call of the handler and
returns the payload of `v`, which is what `extract_value` gives on `v`. -/
theorem success_returns_payload (T T1 T2 T3 α ε : Type)
    (handler : failure_handler α ε) (args : List α) :
    (∀ v : Option T, (error_traits_optional T).indicates_error v = false →
      ∃ x, v = some x ∧ (error_traits_optional T).extract_value rfl v = some x ∧
        handler_calls (operator_shr (error_traits_optional T) v
          (handle_failure handler args)).trace = [] ∧
        (operator_shr (error_traits_optional T) v (handle_failure handler args)).result =
          outcome.returned x) ∧
    (∀ v : pair T error_code, (error_traits_pair T).indicates_error v = false →
      (error_traits_pair T).extract_value rfl v = some v.first ∧
        handler_calls (operator_shr (error_traits_pair T) v
          (handle_failure handler args)).trace = [] ∧
        (operator_shr (error_traits_pair T) v (handle_failure handler args)).result =
          outcome.returned v.first) ∧
    (∀ v : tuple2 T error_code, (error_traits_tuple2 T).indicates_error v = false →
      (error_traits_tuple2 T).extract_value rfl v = some v.get0 ∧
        handler_calls (operator_shr (error_traits_tuple2 T) v
          (handle_failure handler args)).trace = [] ∧
        (operator_shr (error_traits_tuple2 T) v (handle_failure handler args)).result =
          outcome.returned v.get0) ∧
    (∀ v : tuple3 T1 T2 error_code, (error_traits_tuple3 T1 T2).indicates_error v = false →
      (error_traits_tuple3 T1 T2).extract_value rfl v = some ⟨v.get0, v.get1⟩ ∧
        handler_calls (operator_shr (error_traits_tuple3 T1 T2) v
          (handle_failure handler args)).trace = [] ∧
        (operator_shr (error_traits_tuple3 T1 T2) v (handle_failure handler args)).result =
          outcome.returned ⟨v.get0, v.get1⟩) ∧
    (∀ v : tuple4 T1 T2 T3 error_code,
      (error_traits_tuple4 T1 T2 T3).indicates_error v = false →
      (error_traits_tuple4 T1 T2 T3).extract_value rfl v = some ⟨v.get0, v.get1, v.get2⟩ ∧
        handler_calls (operator_shr (error_traits_tuple4 T1 T2 T3) v
          (handle_failure handler args)).trace = [] ∧
        (operator_shr (error_traits_tuple4 T1 T2 T3) v (handle_failure handler args)).result =
          outcome.returned ⟨v.get0, v.get1, v.get2⟩) := by
  refine ⟨?_, ?_, ?_, ?_, ?_⟩
  · intro v hv
    cases v with
    | none => simp [error_traits_optional] at hv
    | some x =>
      exact ⟨x, rfl, rfl,
        operator_shr_success_calls (error_traits_optional T) (some x) _ x rfl hv rfl⟩
  · intro v hv
    exact ⟨rfl, operator_shr_success_calls (error_traits_pair T) v _ v.first rfl hv rfl⟩
  · intro v hv
    exact ⟨rfl, operator_shr_success_calls (error_traits_tuple2 T) v _ v.get0 rfl hv rfl⟩
  · intro v hv
    exact ⟨rfl, operator_shr_success_calls (error_traits_tuple3 T1 T2) v _
      ⟨v.get0, v.get1⟩ rfl hv rfl⟩
  · intro v hv
    exact ⟨rfl, operator_shr_success_calls (error_traits_tuple4 T1 T2 T3) v _
      ⟨v.get0, v.get1, v.get2⟩ rfl hv rfl⟩

/-- C1 at the inputs of the specification : an optional holding `1` returns `1`
and the pair `(0, ok-status)` returns `0`, with a handler that is never called. -/
theorem success_returns_payload_witness :
    ((error_traits_optional Int).indicates_error (some 1) = false ∧
      (operator_shr (error_traits_optional Int) (some 1)
        (handle_failure (fun _ _ => (handler_result.returns : handler_result Unit))
          [10, 20])).result = outcome.returned 1) ∧
    ((error_traits_pair Int).indicates_error ⟨0, error_code_default (fun _ => "")⟩ = false ∧
      handler_calls (operator_shr (error_traits_pair Int) ⟨0, error_code_default (fun _ => "")⟩
        (handle_failure (fun _ _ => (handler_result.returns : handler_result Unit))
          [10, 20])).trace = [] ∧
      (operator_shr (error_traits_pair Int) ⟨0, error_code_default (fun _ => "")⟩
        (handle_failure (fun _ _ => (handler_result.returns : handler_result Unit))
          [10, 20])).result = outcome.returned 0) := by
  have h := success_returns_payload Int Int Int Int Nat Unit
    (fun _ _ => handler_result.returns) [10, 20]
  refine ⟨⟨rfl, ?_⟩, ⟨rfl, ?_, ?_⟩⟩
  · obtain ⟨x, hx, _, _, hr⟩ := h.1 (some 1) rfl
    cases hx
    exact hr
  · exact (h.2.1 ⟨0, error_code_default (fun _ => "")⟩ rfl).2.1
  · exact (h.2.1 ⟨0, error_code_default (fun _ => "")⟩ rfl).2.2

/-- C2 : for each built-in shape (optional, bare status, pair, tuples of two,
three and four fields), for every value `v` which is an error and every bundle
`handle_failure(handler, args...)`, the execution of
`v >> handle_failure(handler, args...)` contains exactly one call of the
handler, and that call receives `error_info v` followed by `args...` in their
order, whether the handler returns or throws. -/
theorem failure_invokes_handler_once (T T1 T2 T3 α ε : Type)
    (handler : failure_handler α ε) (args : List α) :
    (∀ v : Option T, (error_traits_optional T).indicates_error v = true →
      handler_calls (operator_shr (error_traits_optional T) v
        (handle_failure handler args)).trace =
        [((error_traits_optional T).error_info v, args)]) ∧
    (∀ v : error_code, error_traits_error_code.indicates_error v = true →
      handler_calls (operator_shr error_traits_error_code v
        (handle_failure handler args)).trace =
        [(error_traits_error_code.error_info v, args)]) ∧
    (∀ v : pair T error_code, (error_traits_pair T).indicates_error v = true →
      handler_calls (operator_shr (error_traits_pair T) v
        (handle_failure handler args)).trace =
        [((error_traits_pair T).error_info v, args)]) ∧
    (∀ v : tuple2 T error_code, (error_traits_tuple2 T).indicates_error v = true →
      handler_calls (operator_shr (error_traits_tuple2 T) v
        (handle_failure handler args)).trace =
        [((error_traits_tuple2 T).error_info v, args)]) ∧
    (∀ v : tuple3 T1 T2 error_code, (error_traits_tuple3 T1 T2).indicates_error v = true →
      handler_calls (operator_shr (error_traits_tuple3 T1 T2) v
        (handle_failure handler args)).trace =
        [((error_traits_tuple3 T1 T2).error_info v, args)]) ∧
    (∀ v : tuple4 T1 T2 T3 error_code,
      (error_traits_tuple4 T1 T2 T3).indicates_error v = true →
      handler_calls (operator_shr (error_traits_tuple4 T1 T2 T3) v
        (handle_failure handler args)).trace =
        [((error_traits_tuple4 T1 T2 T3).error_info v, args)]) :=
  ⟨fun v hv => operator_shr_failure_calls _ v _ hv,
    fun v hv => operator_shr_failure_calls _ v _ hv,
    fun v hv => operator_shr_failure_calls _ v _ hv,
    fun v hv => operator_shr_failure_calls _ v _ hv,
    fun v hv => operator_shr_failure_calls _ v _ hv,
    fun v hv => operator_shr_failure_calls _ v _ hv⟩

/-- C2 at concrete inputs : the empty optional and the pair `(0, fail_errc)`,
with a handler that returns and the extra arguments `10, 20, 30`. -/
theorem failure_invokes_handler_once_witness :
    ((error_traits_optional Int).indicates_error none = true ∧
      handler_calls (operator_shr (error_traits_optional Int) none
        (handle_failure (fun _ _ => (handler_result.returns : handler_result Unit))
          [10, 20, 30])).trace = [("Tried to unwrap empty optional", [10, 20, 30])]) ∧
    ((error_traits_pair Int).indicates_error ⟨0, fail_errc (fun _ => "failed")⟩ = true ∧
      handler_calls (operator_shr (error_traits_pair Int) ⟨0, fail_errc (fun _ => "failed")⟩
        (handle_failure (fun _ _ => (handler_result.returns : handler_result Unit))
          [10, 20, 30])).trace =
        [("From error category 'system' : failed", [10, 20, 30])]) := by
  have h := failure_invokes_handler_once Int Int Int Int Nat Unit
    (fun _ _ => handler_result.returns) [10, 20, 30]
  exact ⟨⟨rfl, h.1 none rfl⟩, ⟨rfl, h.2.2.1 ⟨0, fail_errc (fun _ => "failed")⟩ rfl⟩⟩

/-! ## The unwrap handler -/

/-- The fold `(ss << ... << strs)` appends the concatenation of the fragments. -/
theorem stream_all_eq (ss : String) (strs : List String) :
    stream_all ss strs = ss ++ String.join strs := by
  unfold stream_all String.join
  induction strs generalizing ss with
  | nil => simp
  | cons str rest ih =>
    simp only [List.foldl_cons]
    rw [ih (ss ++ str), ih ("" ++ str), String.empty_append, String.append_assoc]

/-- The recorder, called with at least one fragment, appends one section. -/
theorem recorder_fragments (strs : List String) (ss : String) (h : strs ≠ []) :
    recorder strs ss = ss ++ "Context info : " ++ String.join strs ++ "." := by
  have hlen : strs.length > 0 := List.length_pos.mpr h
  unfold recorder
  simp only [hlen, if_true, stream_all_eq]

/-- The recorder, called with no fragment, leaves the stream as it is. -/
theorem recorder_nil (ss : String) : recorder [] ss = ss := rfl

/-- A producer all of whose calls of the recorder carry no fragment leaves the
stream as it is. -/
theorem invoke_no_fragment (calls : List (List String)) (ss : String)
    (h : ∀ strs ∈ calls, strs = []) :
    context_producer.invoke ⟨calls⟩ recorder ss = ss := by
  unfold context_producer.invoke
  induction calls with
  | nil => rfl
  | cons strs rest ih =>
    have h0 : strs = [] := h strs (List.mem_cons_self _ _)
    subst h0
    simp only [List.foldl_cons, recorder_nil]
    exact ih (fun strs hs => h strs (List.mem_cons_of_mem _ hs))

/-- The message of the formatter for a producer calling the recorder once, with
at least one fragment. -/
theorem formatter_call_fragments (info : String) (strs : List String) (h : strs ≠ []) :
    formatter_call info ⟨[strs]⟩ =
      ⟨"Error message : " ++ info ++ ". Context info : " ++ String.join strs ++ "."⟩ := by
  have hsep : ". " ++ "Context info : " = ". Context info : " := by decide
  unfold formatter_call context_producer.invoke
  simp only [List.foldl_cons, List.foldl_nil, recorder_fragments strs _ h,
    String.empty_append]
  rw [String.append_assoc ("Error message : " ++ info) ". " "Context info : ", hsep]

/-- The message of the formatter for a producer supplying no fragment. -/
theorem formatter_call_no_fragment (info : String) (calls : List (List String))
    (h : ∀ strs ∈ calls, strs = []) :
    formatter_call info ⟨calls⟩ = ⟨"Error message : " ++ info ++ ". "⟩ := by
  unfold formatter_call
  simp only [invoke_no_fragment calls _ h, String.empty_append]

/-- With the bundle `unwrap(p)`, the operator ends with an exception exactly on the
values which are errors. -/
theorem unwrap_is_thrown {T P : Type} (traits : error_traits T P) (value : T)
    (p : context_producer) :
    (operator_shr traits value (unwrap p)).result.is_thrown =
      traits.indicates_error value := by
  cases hv : traits.indicates_error value with
  | true =>
    rw [operator_shr_failure_throws traits value (unwrap p)
      (formatter_call (traits.error_info value) p) hv rfl]
    rfl
  | false =>
    unfold operator_shr
    simp only [hv, Bool.false_eq_true, if_false]
    exact extract_step_not_thrown traits value _

/-- With the bundle `unwrap(p)`, the exception on a value which is an error is
the one of the formatter, called on the description of the value and on `p`. -/
theorem unwrap_failure_result {T P : Type} (traits : error_traits T P) (value : T)
    (p : context_producer) (hv : traits.indicates_error value = true) :
    (operator_shr traits value (unwrap p)).result =
      outcome.thrown (formatter_call (traits.error_info value) p) := by
  rw [operator_shr_failure_throws traits value (unwrap p)
    (formatter_call (traits.error_info value) p) hv rfl]

/-- The test driver returns zero : every case behaves as it expects. -/
theorem main_returns_zero (strerror : Int → String) : main strerror = 0 := rfl

/-- With the bundle `unwrap(p)`, the operator raises an `unwrap_error` exactly on
the values which are errors. -/
theorem unwrap_raises_iff {T P : Type} (traits : error_traits T P) (value : T)
    (p : context_producer) :
    (∃ e : unwrap_error, (operator_shr traits value (unwrap p)).result = outcome.thrown e) ↔
      traits.indicates_error value = true := by
  rw [← unwrap_is_thrown traits value p]
  cases (operator_shr traits value (unwrap p)).result <;> simp [outcome.is_thrown]

/-- C3 : for each built-in shape, every value `v` and every context producer `p`,
`v >> unwrap(p)` raises an `unwrap_error` if and only if `indicates_error v`
is true, and when `v` is not an error it returns the payload of `v` (nothing
for a bare status, which has no payload). -/
theorem unwrap_raises_iff_error (T T1 T2 T3 : Type) (p : context_producer) :
    (∀ v : Option T,
      ((∃ e : unwrap_error, (operator_shr (error_traits_optional T) v (unwrap p)).result =
          outcome.thrown e) ↔ (error_traits_optional T).indicates_error v = true) ∧
      ((error_traits_optional T).indicates_error v = false →
        ∃ x, v = some x ∧
          (operator_shr (error_traits_optional T) v (unwrap p)).result =
            outcome.returned x)) ∧
    (∀ v : error_code,
      ((∃ e : unwrap_error, (operator_shr error_traits_error_code v (unwrap p)).result =
          outcome.thrown e) ↔ error_traits_error_code.indicates_error v = true) ∧
      (error_traits_error_code.indicates_error v = false →
        (operator_shr error_traits_error_code v (unwrap p)).result =
          outcome.returned_void)) ∧
    (∀ v : pair T error_code,
      ((∃ e : unwrap_error, (operator_shr (error_traits_pair T) v (unwrap p)).result =
          outcome.thrown e) ↔ (error_traits_pair T).indicates_error v = true) ∧
      ((error_traits_pair T).indicates_error v = false →
        (operator_shr (error_traits_pair T) v (unwrap p)).result =
          outcome.returned v.first)) ∧
    (∀ v : tuple2 T error_code,
      ((∃ e : unwrap_error, (operator_shr (error_traits_tuple2 T) v (unwrap p)).result =
          outcome.thrown e) ↔ (error_traits_tuple2 T).indicates_error v = true) ∧
      ((error_traits_tuple2 T).indicates_error v = false →
        (operator_shr (error_traits_tuple2 T) v (unwrap p)).result =
          outcome.returned v.get0)) ∧
    (∀ v : tuple3 T1 T2 error_code,
      ((∃ e : unwrap_error, (operator_shr (error_traits_tuple3 T1 T2) v (unwrap p)).result =
          outcome.thrown e) ↔ (error_traits_tuple3 T1 T2).indicates_error v = true) ∧
      ((error_traits_tuple3 T1 T2).indicates_error v = false →
        (operator_shr (error_traits_tuple3 T1 T2) v (unwrap p)).result =
          outcome.returned ⟨v.get0, v.get1⟩)) ∧
    (∀ v : tuple4 T1 T2 T3 error_code,
      ((∃ e : unwrap_error, (operator_shr (error_traits_tuple4 T1 T2 T3) v (unwrap p)).result =
          outcome.thrown e) ↔ (error_traits_tuple4 T1 T2 T3).indicates_error v = true) ∧
      ((error_traits_tuple4 T1 T2 T3).indicates_error v = false →
        (operator_shr (error_traits_tuple4 T1 T2 T3) v (unwrap p)).result =
          outcome.returned ⟨v.get0, v.get1, v.get2⟩)) := by
  refine ⟨?_, ?_, ?_, ?_, ?_, ?_⟩
  · intro v
    refine ⟨unwrap_raises_iff _ v p, fun hv => ?_⟩
    cases v with
    | none => simp [error_traits_optional] at hv
    | some x =>
      exact ⟨x, rfl,
        (operator_shr_success_calls (error_traits_optional T) (some x) _ x rfl hv rfl).2⟩
  · intro v
    refine ⟨unwrap_raises_iff _ v p, fun hv => ?_⟩
    rw [operator_shr_success_void error_traits_error_code v _ rfl hv]
  · intro v
    exact ⟨unwrap_raises_iff _ v p, fun hv =>
      (operator_shr_success_calls (error_traits_pair T) v _ v.first rfl hv rfl).2⟩
  · intro v
    exact ⟨unwrap_raises_iff _ v p, fun hv =>
      (operator_shr_success_calls (error_traits_tuple2 T) v _ v.get0 rfl hv rfl).2⟩
  · intro v
    exact ⟨unwrap_raises_iff _ v p, fun hv =>
      (operator_shr_success_calls (error_traits_tuple3 T1 T2) v _
        ⟨v.get0, v.get1⟩ rfl hv rfl).2⟩
  · intro v
    exact ⟨unwrap_raises_iff _ v p, fun hv =>
      (operator_shr_success_calls (error_traits_tuple4 T1 T2 T3) v _
        ⟨v.get0, v.get1, v.get2⟩ rfl hv rfl).2⟩

/-- C3 at the inputs of the tests : an optional holding `1` and a
default-constructed pair do not raise and return their payload; the empty
optional and the triple `(0, 0, fail_errc)` raise. -/
theorem unwrap_raises_iff_error_witness :
    ((error_traits_optional Int).indicates_error (some 1) = false ∧
      (operator_shr (error_traits_optional Int) (some 1)
        (unwrap ⟨[["Failure in case ", "1"]]⟩)).result = outcome.returned 1) ∧
    ((error_traits_pair Int).indicates_error ⟨0, error_code_default (fun _ => "")⟩ = false ∧
      (operator_shr (error_traits_pair Int) ⟨0, error_code_default (fun _ => "")⟩
        (unwrap ⟨[["Failure in case ", "1"]]⟩)).result = outcome.returned 0) ∧
    ((error_traits_optional Int).indicates_error none = true ∧
      ∃ e : unwrap_error, (operator_shr (error_traits_optional Int) none
        (unwrap ⟨[["Failure in case ", "1"]]⟩)).result = outcome.thrown e) ∧
    ((error_traits_tuple3 Int Int).indicates_error ⟨0, 0, fail_errc (fun _ => "")⟩ = true ∧
      ∃ e : unwrap_error,
        (operator_shr (error_traits_tuple3 Int Int) ⟨0, 0, fail_errc (fun _ => "")⟩
          (unwrap ⟨[["Failure in case ", "1"]]⟩)).result = outcome.thrown e) := by
  have h := unwrap_raises_iff_error Int Int Int Int ⟨[["Failure in case ", "1"]]⟩
  refine ⟨⟨rfl, ?_⟩, ⟨rfl, ?_⟩, ⟨rfl, ?_⟩, ⟨rfl, ?_⟩⟩
  · obtain ⟨x, hx, hr⟩ := (h.1 (some 1)).2 rfl
    cases hx
    exact hr
  · exact (h.2.2.1 ⟨0, error_code_default (fun _ => "")⟩).2 rfl
  · exact (h.1 none).1.mpr rfl
  · exact (h.2.2.2.2.1 ⟨0, 0, fail_errc (fun _ => "")⟩).1.mpr rfl

/-- C4 : for every description `d` and every non-empty pack of fragments `fs`
passed by the context producer in one call of the recorder, the unwrap handler
does not return : it throws the error whose message is
`Error message : d. Context info : ` followed by the fragments of `fs`
concatenated in order with nothing between them, followed by one period.  The
bundle of the macro `HF_UNWRAP(fs...)` holds this handler and this producer. -/
theorem unwrap_message_with_context (d : String) (fs : List String) (h : fs ≠ []) :
    formatter d [⟨[fs]⟩] =
      handler_result.throws
        ⟨"Error message : " ++ d ++ ". Context info : " ++ String.join fs ++ "."⟩ ∧
    (HF_UNWRAP fs).handler d (HF_UNWRAP fs).args =
      handler_result.throws
        ⟨"Error message : " ++ d ++ ". Context info : " ++ String.join fs ++ "."⟩ := by
  have hcall : formatter d [⟨[fs]⟩] = handler_result.throws (formatter_call d ⟨[fs]⟩) := rfl
  have hbundle : (HF_UNWRAP fs).handler d (HF_UNWRAP fs).args = formatter d [⟨[fs]⟩] := rfl
  rw [hbundle, hcall, formatter_call_fragments d fs h]
  exact ⟨rfl, rfl⟩

/-- C4 at a concrete input : the description `boom` and the fragments
`While calling f(`, `x`, `)`. -/
theorem unwrap_message_with_context_witness :
    ["While calling f(", "x", ")"] ≠ [] ∧
    formatter "boom" [⟨[["While calling f(", "x", ")"]]⟩] =
      handler_result.throws
        ⟨"Error message : boom. Context info : While calling f(x)."⟩ :=
  ⟨by decide, (unwrap_message_with_context "boom" ["While calling f(", "x", ")"] (by decide)).1⟩

/-- C5 : for every description `d`, the unwrap handler given a context producer
that supplies no fragment (it never calls the recorder, or calls it with an
empty pack) throws the error whose message is exactly `Error message : d. `,
and so does the handler of the bundle `unwrap()` on the producer that bundle
holds. -/
theorem unwrap_message_without_context (d : String) :
    (∀ p : context_producer, (∀ strs ∈ p.calls, strs = []) →
      formatter d [p] = handler_result.throws ⟨"Error message : " ++ d ++ ". "⟩) ∧
    unwrap_default.handler d unwrap_default.args =
      handler_result.throws ⟨"Error message : " ++ d ++ ". "⟩ := by
  have hgen : ∀ p : context_producer, (∀ strs ∈ p.calls, strs = []) →
      formatter d [p] = handler_result.throws ⟨"Error message : " ++ d ++ ". "⟩ := by
    intro p hp
    have hcall : formatter d [p] = handler_result.throws (formatter_call d p) := rfl
    rw [hcall, formatter_call_no_fragment d p.calls hp]
  exact ⟨hgen, hgen ⟨[]⟩ (fun _ hs => absurd hs (List.not_mem_nil _))⟩

/-- C5 at a concrete input : the description `boom` and a producer calling the
recorder once with no fragment. -/
theorem unwrap_message_without_context_witness :
    (∀ strs ∈ (⟨[[]]⟩ : context_producer).calls, strs = []) ∧
    formatter "boom" [⟨[[]]⟩] = handler_result.throws ⟨"Error message : boom. "⟩ :=
  ⟨by decide, (unwrap_message_without_context "boom").1 ⟨[[]]⟩ (by decide)⟩

/-- C6 : for every payload type, the description of an empty optional is
`Tried to unwrap empty optional`; the empty optional chained with `unwrap` of
a producer supplying the one fragment `case 1` raises the error whose message
is `Error message : Tried to unwrap empty optional. Context info : case 1.`;
and for every non-empty pack `fs` the message is
`Error message : Tried to unwrap empty optional. Context info : ` followed by
the fragments concatenated and a period. -/
theorem empty_optional_unwrap_message (T : Type) :
    (error_traits_optional T).error_info none = "Tried to unwrap empty optional" ∧
    (operator_shr (error_traits_optional T) none (unwrap ⟨[["case 1"]]⟩)).result =
      outcome.thrown
        ⟨"Error message : Tried to unwrap empty optional. Context info : case 1."⟩ ∧
    (∀ fs : List String, fs ≠ [] →
      (operator_shr (error_traits_optional T) none (unwrap ⟨[fs]⟩)).result =
        outcome.thrown
          ⟨"Error message : Tried to unwrap empty optional. Context info : " ++
            String.join fs ++ "."⟩) := by
  have hgen : ∀ fs : List String, fs ≠ [] →
      (operator_shr (error_traits_optional T) none (unwrap ⟨[fs]⟩)).result =
        outcome.thrown
          ⟨"Error message : Tried to unwrap empty optional. Context info : " ++
            String.join fs ++ "."⟩ := by
    intro fs hfs
    rw [unwrap_failure_result (error_traits_optional T) none ⟨[fs]⟩ rfl,
      formatter_call_fragments _ fs hfs]
    rfl
  exact ⟨rfl, hgen ["case 1"] (by decide), hgen⟩

/-- C6 at a concrete input : the fragments of the tests, `Failure in case ` and `2`. -/
theorem empty_optional_unwrap_message_witness :
    ["Failure in case ", "2"] ≠ [] ∧
    (operator_shr (error_traits_optional Int) none
      (unwrap ⟨[["Failure in case ", "2"]]⟩)).result =
      outcome.thrown
        ⟨"Error message : Tried to unwrap empty optional. Context info : Failure in case 2."⟩ :=
  ⟨by decide, (empty_optional_unwrap_message Int).2.2 ["Failure in case ", "2"] (by decide)⟩

/-! ## The built-in adapters -/

/-- The description of a status : its category name and its message, in the
fixed format. -/
theorem errc_info_eq (err : error_code) :
    errc_info err =
      "From error category '" ++ err.category.name ++ "' : " ++
        err.category.message err.value := by
  simp [errc_info, concatene, concatene_impl, error_code.message]

/-- A status indicates an error exactly when its value is not zero. -/
theorem errc_indicates_error_iff (err : error_code) :
    errc_indicates_error err = true ↔ err.value ≠ 0 := by
  simp [errc_indicates_error, error_code.to_bool]

/-- C7 : for each built-in shape with a status (bare status, pair, tuples of two,
three and four fields) and every value whose trailing status has the numeric
value `value` in the category `category`, `error_info` is exactly
`From error category '` followed by the name of the category, `' : ` and the
message of the status, whatever the payload fields are. -/
theorem error_info_format (T T1 T2 T3 : Type) (value : Int) (category : error_category) :
    error_traits_error_code.error_info ⟨value, category⟩ =
      "From error category '" ++ category.name ++ "' : " ++ category.message value ∧
    (∀ v1 : T, (error_traits_pair T).error_info ⟨v1, ⟨value, category⟩⟩ =
      "From error category '" ++ category.name ++ "' : " ++ category.message value) ∧
    (∀ v1 : T, (error_traits_tuple2 T).error_info ⟨v1, ⟨value, category⟩⟩ =
      "From error category '" ++ category.name ++ "' : " ++ category.message value) ∧
    (∀ (v1 : T1) (v2 : T2),
      (error_traits_tuple3 T1 T2).error_info ⟨v1, v2, ⟨value, category⟩⟩ =
        "From error category '" ++ category.name ++ "' : " ++ category.message value) ∧
    (∀ (v1 : T1) (v2 : T2) (v3 : T3),
      (error_traits_tuple4 T1 T2 T3).error_info ⟨v1, v2, v3, ⟨value, category⟩⟩ =
        "From error category '" ++ category.name ++ "' : " ++ category.message value) :=
  ⟨errc_info_eq ⟨value, category⟩,
    fun _ => errc_info_eq ⟨value, category⟩,
    fun _ => errc_info_eq ⟨value, category⟩,
    fun _ _ => errc_info_eq ⟨value, category⟩,
    fun _ _ _ => errc_info_eq ⟨value, category⟩⟩

/-- C8 : `extract_value` of the tuple adapters returns the leading fields in
their order and drops the trailing status : `(v1, s)` gives `v1` (for the pair
and for the tuple of two fields), `(v1, v2, s)` gives `(v1, v2)` and
`(v1, v2, v3, s)` gives `(v1, v2, v3)`. -/
theorem tuple_extract_value (T T1 T2 T3 : Type) :
    (∀ (v1 : T) (s : error_code),
      (error_traits_pair T).extract_value rfl ⟨v1, s⟩ = some v1) ∧
    (∀ (v1 : T) (s : error_code),
      (error_traits_tuple2 T).extract_value rfl ⟨v1, s⟩ = some v1) ∧
    (∀ (v1 : T1) (v2 : T2) (s : error_code),
      (error_traits_tuple3 T1 T2).extract_value rfl ⟨v1, v2, s⟩ = some ⟨v1, v2⟩) ∧
    (∀ (v1 : T1) (v2 : T2) (v3 : T3) (s : error_code),
      (error_traits_tuple4 T1 T2 T3).extract_value rfl ⟨v1, v2, v3, s⟩ =
        some ⟨v1, v2, v3⟩) :=
  ⟨fun _ _ => rfl, fun _ _ => rfl, fun _ _ _ => rfl, fun _ _ _ _ => rfl⟩

/-- C9, on the code : with a handler that returns, the operator calls
`extract_value` on a value for which `indicates_error` returned true.  On the
pair `(0, fail_errc)` it then returns the payload `0`; on the empty optional the
extraction is undefined. -/
theorem extract_value_after_failure (strerror : Int → String) :
    ((error_traits_pair Int).indicates_error ⟨0, fail_errc strerror⟩ = true ∧
      operator_shr (error_traits_pair Int) ⟨0, fail_errc strerror⟩
        (handle_failure (fun _ _ => (handler_result.returns : handler_result Unit))
          ([] : List Unit)) =
        ⟨[event.indicates_error true,
            event.handler ("From error category 'system' : " ++ strerror 1) [],
            event.extract_value],
          outcome.returned 0⟩) ∧
    ((error_traits_optional Int).indicates_error none = true ∧
      operator_shr (error_traits_optional Int) none
        (handle_failure (fun _ _ => (handler_result.returns : handler_result Unit))
          ([] : List Unit)) =
        ⟨[event.indicates_error true,
            event.handler "Tried to unwrap empty optional" [],
            event.extract_value],
          outcome.undefined⟩) :=
  ⟨⟨rfl, rfl⟩, ⟨rfl, rfl⟩⟩

/-- C10 : for each built-in shape with a status, `indicates_error` is true if
and only if the numeric value of the trailing status is not zero, whatever the
category and the payload fields are; for the optional it is true if and only if
the optional is empty. -/
theorem indicates_error_iff (T T1 T2 T3 : Type) :
    (∀ s : error_code, error_traits_error_code.indicates_error s = true ↔ s.value ≠ 0) ∧
    (∀ (v1 : T) (s : error_code),
      (error_traits_pair T).indicates_error ⟨v1, s⟩ = true ↔ s.value ≠ 0) ∧
    (∀ (v1 : T) (s : error_code),
      (error_traits_tuple2 T).indicates_error ⟨v1, s⟩ = true ↔ s.value ≠ 0) ∧
    (∀ (v1 : T1) (v2 : T2) (s : error_code),
      (error_traits_tuple3 T1 T2).indicates_error ⟨v1, v2, s⟩ = true ↔ s.value ≠ 0) ∧
    (∀ (v1 : T1) (v2 : T2) (v3 : T3) (s : error_code),
      (error_traits_tuple4 T1 T2 T3).indicates_error ⟨v1, v2, v3, s⟩ = true ↔
        s.value ≠ 0) ∧
    (∀ v : Option T, (error_traits_optional T).indicates_error v = true ↔ v = none) := by
  refine ⟨fun s => errc_indicates_error_iff s, fun _ s => errc_indicates_error_iff s,
    fun _ s => errc_indicates_error_iff s, fun _ _ s => errc_indicates_error_iff s,
    fun _ _ _ s => errc_indicates_error_iff s, fun v => ?_⟩
  cases v <;> simp [error_traits_optional]

/-! ## Handlers that return -/

/-- On a value which is an error, of a shape without payload and with a handler
that returns, the operator returns nothing after the one handler call. -/
theorem operator_shr_failure_returns_void {T P α ε : Type} (traits : error_traits T P)
    (value : T) (context : failure_context_t α ε)
    (hc : traits.contains_value = false)
    (hv : traits.indicates_error value = true)
    (hh : context.handler (traits.error_info value) context.args = handler_result.returns) :
    operator_shr traits value context =
      ⟨[event.indicates_error true,
          event.handler (traits.error_info value) context.args],
        outcome.returned_void⟩ := by
  unfold operator_shr
  rw [if_pos hv, trigger_failure_eq, hh]
  unfold extract_step
  simp [hc]

/-- On a value which is an error, of a shape with a payload and with a handler
that returns, the operator goes on to the extraction after the one handler call. -/
theorem operator_shr_failure_returns {T P α ε : Type} (traits : error_traits T P)
    (value : T) (context : failure_context_t α ε) (payload : P)
    (hc : traits.contains_value = true)
    (hv : traits.indicates_error value = true)
    (hh : context.handler (traits.error_info value) context.args = handler_result.returns)
    (hp : traits.extract_value hc value = some payload) :
    operator_shr traits value context =
      ⟨[event.indicates_error true,
          event.handler (traits.error_info value) context.args,
          event.extract_value],
        outcome.returned payload⟩ := by
  unfold operator_shr
  rw [if_pos hv, trigger_failure_eq, hh]
  unfold extract_step
  simp [hc, hp]

/-- C11 : for the bare status shape, every status `s` and every bundle, the
execution of `s >> handle_failure(handler, args...)` performs no payload
extraction and ends either returning nothing or with the exception of the
handler; when `s` is zero the handler is not called and nothing is returned;
when `s` is not zero the handler is called exactly once, on
`From error category '<category>' : <message>` of `s` followed by `args...`,
and the operator returns nothing if the handler returns, and ends with the
exception of the handler if it throws. -/
theorem error_code_returns_nothing (α ε : Type) (handler : failure_handler α ε)
    (args : List α) (s : error_code) :
    extract_calls
      (operator_shr error_traits_error_code s (handle_failure handler args)).trace = 0 ∧
    ((operator_shr error_traits_error_code s (handle_failure handler args)).result =
        outcome.returned_void ∨
      ∃ e, (operator_shr error_traits_error_code s (handle_failure handler args)).result =
        outcome.thrown e) ∧
    (s.value = 0 →
      operator_shr error_traits_error_code s (handle_failure handler args) =
        ⟨[event.indicates_error false], outcome.returned_void⟩) ∧
    (s.value ≠ 0 →
      handler_calls
        (operator_shr error_traits_error_code s (handle_failure handler args)).trace =
        [("From error category '" ++ s.category.name ++ "' : " ++
            s.category.message s.value, args)]) ∧
    (s.value ≠ 0 →
      handler ("From error category '" ++ s.category.name ++ "' : " ++
          s.category.message s.value) args = handler_result.returns →
      (operator_shr error_traits_error_code s (handle_failure handler args)).result =
        outcome.returned_void) ∧
    (∀ e, s.value ≠ 0 →
      handler ("From error category '" ++ s.category.name ++ "' : " ++
          s.category.message s.value) args = handler_result.throws e →
      (operator_shr error_traits_error_code s (handle_failure handler args)).result =
        outcome.thrown e) := by
  have hinfo : error_traits_error_code.error_info s =
      "From error category '" ++ s.category.name ++ "' : " ++
        s.category.message s.value := errc_info_eq s
  have hind : error_traits_error_code.indicates_error s = true ↔ s.value ≠ 0 :=
    errc_indicates_error_iff s
  have hret : ∀ hv : error_traits_error_code.indicates_error s = true,
      handler (error_traits_error_code.error_info s) args = handler_result.returns →
      operator_shr error_traits_error_code s (handle_failure handler args) =
        ⟨[event.indicates_error true,
            event.handler (error_traits_error_code.error_info s) args],
          outcome.returned_void⟩ :=
    fun hv hh => operator_shr_failure_returns_void error_traits_error_code s
      (handle_failure handler args) rfl hv hh
  have hthr : ∀ e, error_traits_error_code.indicates_error s = true →
      handler (error_traits_error_code.error_info s) args = handler_result.throws e →
      operator_shr error_traits_error_code s (handle_failure handler args) =
        ⟨[event.indicates_error true,
            event.handler (error_traits_error_code.error_info s) args],
          outcome.thrown e⟩ :=
    fun e hv hh => operator_shr_failure_throws error_traits_error_code s
      (handle_failure handler args) e hv hh
  have hok : error_traits_error_code.indicates_error s = false →
      operator_shr error_traits_error_code s (handle_failure handler args) =
        ⟨[event.indicates_error false], outcome.returned_void⟩ :=
    fun hv => operator_shr_success_void error_traits_error_code s
      (handle_failure handler args) rfl hv
  refine ⟨?_, ?_, ?_, ?_, ?_, ?_⟩
  · cases hv : error_traits_error_code.indicates_error s with
    | false => rw [hok hv]; rfl
    | true =>
      cases hh : handler (error_traits_error_code.error_info s) args with
      | returns => rw [hret hv hh]; rfl
      | throws e => rw [hthr e hv hh]; rfl
  · cases hv : error_traits_error_code.indicates_error s with
    | false => rw [hok hv]; exact Or.inl rfl
    | true =>
      cases hh : handler (error_traits_error_code.error_info s) args with
      | returns => rw [hret hv hh]; exact Or.inl rfl
      | throws e => rw [hthr e hv hh]; exact Or.inr ⟨e, rfl⟩
  · intro hz
    apply hok
    cases hv : error_traits_error_code.indicates_error s with
    | false => rfl
    | true => exact absurd hz (hind.mp hv)
  · intro hnz
    rw [← hinfo]
    exact operator_shr_failure_calls error_traits_error_code s
      (handle_failure handler args) (hind.mpr hnz)
  · intro hnz hh
    rw [← hinfo] at hh
    rw [hret (hind.mpr hnz) hh]
  · intro e hnz hh
    rw [← hinfo] at hh
    rw [hthr e (hind.mpr hnz) hh]

/-- C11 at concrete inputs : the status `fail_errc` with a handler that returns
and the extra arguments `10, 20`, and the default status. -/
theorem error_code_returns_nothing_witness :
    ((fail_errc (fun _ => "failed")).value ≠ 0 ∧
      handler_calls (operator_shr error_traits_error_code (fail_errc (fun _ => "failed"))
        (handle_failure (fun _ _ => (handler_result.returns : handler_result Unit))
          [10, 20])).trace = [("From error category 'system' : failed", [10, 20])] ∧
      (operator_shr error_traits_error_code (fail_errc (fun _ => "failed"))
        (handle_failure (fun _ _ => (handler_result.returns : handler_result Unit))
          [10, 20])).result = outcome.returned_void) ∧
    ((error_code_default (fun _ => "failed")).value = 0 ∧
      operator_shr error_traits_error_code (error_code_default (fun _ => "failed"))
        (handle_failure (fun _ _ => (handler_result.returns : handler_result Unit))
          [10, 20]) = ⟨[event.indicates_error false], outcome.returned_void⟩) := by
  have h := error_code_returns_nothing Nat Unit (fun _ _ => handler_result.returns) [10, 20]
  exact ⟨⟨by decide, (h (fail_errc (fun _ => "failed"))).2.2.2.1 (by decide),
      (h (fail_errc (fun _ => "failed"))).2.2.2.2.1 (by decide) rfl⟩,
    ⟨rfl, (h (error_code_default (fun _ => "failed"))).2.2.1 rfl⟩⟩

/-! ## Lazy context capture -/

/-- The observed call operator throws what `formatter_call` throws, and its log
holds the one producer it called. -/
theorem formatter_call_logged_eq (info : String) (f : context_producer) :
    formatter_call_logged info f = (formatter_call info f, [f]) := rfl

/-- The formatter is the observed formatter with the log forgotten. -/
theorem formatter_erase_log (info : String) (args : List context_producer) :
    formatter info args = (formatter_logged info args).erase_log := by
  match args with
  | [] => rfl
  | [_] => rfl
  | _ :: _ :: _ => rfl

/-- Forgetting the log of the tail of the operator. -/
theorem extract_step_erase_log {T P α ε L : Type} (traits : error_traits T P) (value : T)
    (trace : List (event α)) :
    (extract_step traits value trace : execution α (ε × L) P).erase_log =
      extract_step traits value trace := by
  unfold extract_step
  split
  · split <;> rfl
  · rfl

/-- Running the operator with a handler whose log is forgotten is running it with
the handler and forgetting the log of the execution. -/
theorem operator_shr_erase_log {T P α ε L : Type} (traits : error_traits T P) (value : T)
    (handler : failure_handler α (ε × L)) (forgetful : failure_handler α ε)
    (args : List α) (hf : ∀ info a, forgetful info a = (handler info a).erase_log) :
    operator_shr traits value (handle_failure forgetful args) =
      (operator_shr traits value (handle_failure handler args)).erase_log := by
  unfold operator_shr
  cases hv : traits.indicates_error value with
  | false =>
    simp only [Bool.false_eq_true, if_false]
    exact (extract_step_erase_log traits value _).symm
  | true =>
    simp only [if_true]
    rw [trigger_failure_eq, trigger_failure_eq]
    have hargs : (handle_failure forgetful args).handler (traits.error_info value)
        (handle_failure forgetful args).args =
        ((handle_failure handler args).handler (traits.error_info value)
          (handle_failure handler args).args).erase_log := hf _ _
    rw [hargs]
    cases (handle_failure handler args).handler (traits.error_info value)
        (handle_failure handler args).args with
    | returns => exact (extract_step_erase_log traits value _).symm
    | throws e => rfl

/-- On a value which is not an error, the execution does not depend on the bundle. -/
theorem operator_shr_success_independent {T P α ε : Type} (traits : error_traits T P)
    (value : T) (context other : failure_context_t α ε)
    (hv : traits.indicates_error value = false) :
    operator_shr traits value other = operator_shr traits value context := by
  unfold operator_shr
  simp only [hv, Bool.false_eq_true, if_false]

/-- On a value which is not an error, the handler is not called. -/
theorem operator_shr_success_no_call {T P α ε : Type} (traits : error_traits T P)
    (value : T) (context : failure_context_t α ε)
    (hv : traits.indicates_error value = false) :
    handler_calls (operator_shr traits value context).trace = [] := by
  unfold operator_shr
  simp only [hv, Bool.false_eq_true, if_false, handler_calls_extract_step]
  rfl

/-- On a value which is not an error, the operator does not end with an exception. -/
theorem operator_shr_success_not_thrown {T P α ε : Type} (traits : error_traits T P)
    (value : T) (context : failure_context_t α ε)
    (hv : traits.indicates_error value = false) :
    (operator_shr traits value context).result.is_thrown = false := by
  unfold operator_shr
  simp only [hv, Bool.false_eq_true, if_false]
  exact extract_step_not_thrown traits value _

/-- An execution that does not end with an exception brings no log out. -/
theorem invoked_producers_not_thrown {P : Type}
    (ex : execution context_producer (unwrap_error × List context_producer) P)
    (h : ex.result.is_thrown = false) : invoked_producers ex = [] := by
  unfold invoked_producers
  cases hr : ex.result with
  | thrown e => rw [hr] at h; exact absurd h (by simp [outcome.is_thrown])
  | returned payload => rfl
  | returned_void => rfl
  | undefined => rfl

/-- The facts of lazy capture, for any shape. -/
theorem lazy_capture {T P : Type} (traits : error_traits T P) (v : T)
    (p : context_producer) :
    operator_shr traits v (unwrap p) =
      (operator_shr traits v (unwrap_logged p)).erase_log ∧
    (traits.indicates_error v = false →
      handler_calls (operator_shr traits v (unwrap_logged p)).trace = [] ∧
      invoked_producers (operator_shr traits v (unwrap_logged p)) = [] ∧
      ∀ q : context_producer,
        operator_shr traits v (unwrap q) = operator_shr traits v (unwrap p)) ∧
    (traits.indicates_error v = true →
      handler_calls (operator_shr traits v (unwrap_logged p)).trace =
        [(traits.error_info v, [p])] ∧
      (operator_shr traits v (unwrap_logged p)).result =
        outcome.thrown (formatter_call (traits.error_info v) p, [p]) ∧
      invoked_producers (operator_shr traits v (unwrap_logged p)) = [p]) := by
  refine ⟨?_, fun hv => ⟨?_, ?_, ?_⟩, fun hv => ?_⟩
  · exact operator_shr_erase_log traits v formatter_logged formatter [p] formatter_erase_log
  · exact operator_shr_success_no_call traits v (unwrap_logged p) hv
  · exact invoked_producers_not_thrown _
      (operator_shr_success_not_thrown traits v (unwrap_logged p) hv)
  · exact fun q => operator_shr_success_independent traits v (unwrap p) (unwrap q) hv
  · have hrun := operator_shr_failure_throws traits v (unwrap_logged p)
      (formatter_call (traits.error_info v) p, [p]) hv rfl
    refine ⟨operator_shr_failure_calls traits v (unwrap_logged p) hv, ?_, ?_⟩
    · rw [hrun]
    · rw [hrun]
      rfl

/-- C12 : for each built-in shape, every value `v` and every context producer
`p`.  The execution of `v >> unwrap(p)` is the execution of `v` chained with
the formatter under observation, the log forgotten.  When `v` is not an error,
that execution calls no handler and no producer, and `v >> unwrap(q)` is the
same execution (same calls, same returned payload) for every producer `q`.
When `v` is an error, the formatter is called once, on the description of `v`
and on `p`, and throws after calling `p` exactly once and no other producer.
The formatter is the observed formatter with the log forgotten, and the macro
`HF_UNWRAP(fs...)` is `unwrap` of the producer passing `fs...` in one call of
the recorder. -/
theorem unwrap_lazy_context (T T1 T2 T3 : Type) (p : context_producer) :
    (∀ v : Option T,
      operator_shr (error_traits_optional T) v (unwrap p) =
        (operator_shr (error_traits_optional T) v (unwrap_logged p)).erase_log ∧
      ((error_traits_optional T).indicates_error v = false →
        handler_calls (operator_shr (error_traits_optional T) v (unwrap_logged p)).trace = [] ∧
        invoked_producers (operator_shr (error_traits_optional T) v (unwrap_logged p)) = [] ∧
        ∀ q : context_producer,
          operator_shr (error_traits_optional T) v (unwrap q) = operator_shr (error_traits_optional T) v (unwrap p)) ∧
      ((error_traits_optional T).indicates_error v = true →
        handler_calls (operator_shr (error_traits_optional T) v (unwrap_logged p)).trace =
          [((error_traits_optional T).error_info v, [p])] ∧
        (operator_shr (error_traits_optional T) v (unwrap_logged p)).result =
          outcome.thrown (formatter_call ((error_traits_optional T).error_info v) p, [p]) ∧
        invoked_producers (operator_shr (error_traits_optional T) v (unwrap_logged p)) = [p])) ∧
    (∀ v : error_code,
      operator_shr error_traits_error_code v (unwrap p) =
        (operator_shr error_traits_error_code v (unwrap_logged p)).erase_log ∧
      (error_traits_error_code.indicates_error v = false →
        handler_calls (operator_shr error_traits_error_code v (unwrap_logged p)).trace = [] ∧
        invoked_producers (operator_shr error_traits_error_code v (unwrap_logged p)) = [] ∧
        ∀ q : context_producer,
          operator_shr error_traits_error_code v (unwrap q) = operator_shr error_traits_error_code v (unwrap p)) ∧
      (error_traits_error_code.indicates_error v = true →
        handler_calls (operator_shr error_traits_error_code v (unwrap_logged p)).trace =
          [(error_traits_error_code.error_info v, [p])] ∧
        (operator_shr error_traits_error_code v (unwrap_logged p)).result =
          outcome.thrown (formatter_call (error_traits_error_code.error_info v) p, [p]) ∧
        invoked_producers (operator_shr error_traits_error_code v (unwrap_logged p)) = [p])) ∧
    (∀ v : pair T error_code,
      operator_shr (error_traits_pair T) v (unwrap p) =
        (operator_shr (error_traits_pair T) v (unwrap_logged p)).erase_log ∧
      ((error_traits_pair T).indicates_error v = false →
        handler_calls (operator_shr (error_traits_pair T) v (unwrap_logged p)).trace = [] ∧
        invoked_producers (operator_shr (error_traits_pair T) v (unwrap_logged p)) = [] ∧
        ∀ q : context_producer,
          operator_shr (error_traits_pair T) v (unwrap q) = operator_shr (error_traits_pair T) v (unwrap p)) ∧
      ((error_traits_pair T).indicates_error v = true →
        handler_calls (operator_shr (error_traits_pair T) v (unwrap_logged p)).trace =
          [((error_traits_pair T).error_info v, [p])] ∧
        (operator_shr (error_traits_pair T) v (unwrap_logged p)).result =
          outcome.thrown (formatter_call ((error_traits_pair T).error_info v) p, [p]) ∧
        invoked_producers (operator_shr (error_traits_pair T) v (unwrap_logged p)) = [p])) ∧
    (∀ v : tuple2 T error_code,
      operator_shr (error_traits_tuple2 T) v (unwrap p) =
        (operator_shr (error_traits_tuple2 T) v (unwrap_logged p)).erase_log ∧
      ((error_traits_tuple2 T).indicates_error v = false →
        handler_calls (operator_shr (error_traits_tuple2 T) v (unwrap_logged p)).trace = [] ∧
        invoked_producers (operator_shr (error_traits_tuple2 T) v (unwrap_logged p)) = [] ∧
        ∀ q : context_producer,
          operator_shr (error_traits_tuple2 T) v (unwrap q) = operator_shr (error_traits_tuple2 T) v (unwrap p)) ∧
      ((error_traits_tuple2 T).indicates_error v = true →
        handler_calls (operator_shr (error_traits_tuple2 T) v (unwrap_logged p)).trace =
          [((error_traits_tuple2 T).error_info v, [p])] ∧
        (operator_shr (error_traits_tuple2 T) v (unwrap_logged p)).result =
          outcome.thrown (formatter_call ((error_traits_tuple2 T).error_info v) p, [p]) ∧
        invoked_producers (operator_shr (error_traits_tuple2 T) v (unwrap_logged p)) = [p])) ∧
    (∀ v : tuple3 T1 T2 error_code,
      operator_shr (error_traits_tuple3 T1 T2) v (unwrap p) =
        (operator_shr (error_traits_tuple3 T1 T2) v (unwrap_logged p)).erase_log ∧
      ((error_traits_tuple3 T1 T2).indicates_error v = false →
        handler_calls (operator_shr (error_traits_tuple3 T1 T2) v (unwrap_logged p)).trace = [] ∧
        invoked_producers (operator_shr (error_traits_tuple3 T1 T2) v (unwrap_logged p)) = [] ∧
        ∀ q : context_producer,
          operator_shr (error_traits_tuple3 T1 T2) v (unwrap q) = operator_shr (error_traits_tuple3 T1 T2) v (unwrap p)) ∧
      ((error_traits_tuple3 T1 T2).indicates_error v = true →
        handler_calls (operator_shr (error_traits_tuple3 T1 T2) v (unwrap_logged p)).trace =
          [((error_traits_tuple3 T1 T2).error_info v, [p])] ∧
        (operator_shr (error_traits_tuple3 T1 T2) v (unwrap_logged p)).result =
          outcome.thrown (formatter_call ((error_traits_tuple3 T1 T2).error_info v) p, [p]) ∧
        invoked_producers (operator_shr (error_traits_tuple3 T1 T2) v (unwrap_logged p)) = [p])) ∧
    (∀ v : tuple4 T1 T2 T3 error_code,
      operator_shr (error_traits_tuple4 T1 T2 T3) v (unwrap p) =
        (operator_shr (error_traits_tuple4 T1 T2 T3) v (unwrap_logged p)).erase_log ∧
      ((error_traits_tuple4 T1 T2 T3).indicates_error v = false →
        handler_calls (operator_shr (error_traits_tuple4 T1 T2 T3) v (unwrap_logged p)).trace = [] ∧
        invoked_producers (operator_shr (error_traits_tuple4 T1 T2 T3) v (unwrap_logged p)) = [] ∧
        ∀ q : context_producer,
          operator_shr (error_traits_tuple4 T1 T2 T3) v (unwrap q) = operator_shr (error_traits_tuple4 T1 T2 T3) v (unwrap p)) ∧
      ((error_traits_tuple4 T1 T2 T3).indicates_error v = true →
        handler_calls (operator_shr (error_traits_tuple4 T1 T2 T3) v (unwrap_logged p)).trace =
          [((error_traits_tuple4 T1 T2 T3).error_info v, [p])] ∧
        (operator_shr (error_traits_tuple4 T1 T2 T3) v (unwrap_logged p)).result =
          outcome.thrown (formatter_call ((error_traits_tuple4 T1 T2 T3).error_info v) p, [p]) ∧
        invoked_producers (operator_shr (error_traits_tuple4 T1 T2 T3) v (unwrap_logged p)) = [p])) ∧
    (∀ (info : String) (args : List context_producer),
      formatter info args = (formatter_logged info args).erase_log) ∧
    (∀ fs : List String, HF_UNWRAP fs = unwrap ⟨[fs]⟩) :=
  ⟨fun v => lazy_capture _ v p, fun v => lazy_capture _ v p, fun v => lazy_capture _ v p,
    fun v => lazy_capture _ v p, fun v => lazy_capture _ v p, fun v => lazy_capture _ v p,
    formatter_erase_log, fun _ => rfl⟩

/-- C12 at the inputs of the tests : the optional holding `1` calls no producer
and gives the same execution with the fragments of the tests as with none; on
the pair `(0, fail_errc)` the formatter calls the producer once and throws. -/
theorem unwrap_lazy_context_witness :
    ((error_traits_optional Int).indicates_error (some 1) = false ∧
      invoked_producers (operator_shr (error_traits_optional Int) (some 1)
        (unwrap_logged ⟨[["Failure in case ", "1"]]⟩)) = [] ∧
      operator_shr (error_traits_optional Int) (some 1) (unwrap ⟨[]⟩) =
        operator_shr (error_traits_optional Int) (some 1)
          (unwrap ⟨[["Failure in case ", "1"]]⟩)) ∧
    ((error_traits_pair Int).indicates_error ⟨0, fail_errc (fun _ => "failed")⟩ = true ∧
      invoked_producers (operator_shr (error_traits_pair Int)
        ⟨0, fail_errc (fun _ => "failed")⟩
        (unwrap_logged ⟨[["Failure in case ", "4"]]⟩)) = [⟨[["Failure in case ", "4"]]⟩] ∧
      operator_shr (error_traits_pair Int) ⟨0, fail_errc (fun _ => "failed")⟩
        (unwrap ⟨[["Failure in case ", "4"]]⟩) =
        ⟨[event.indicates_error true,
            event.handler "From error category 'system' : failed"
              [⟨[["Failure in case ", "4"]]⟩]],
          outcome.thrown ⟨"Error message : From error category 'system' : failed. " ++
            "Context info : Failure in case 4."⟩⟩) :=
  ⟨⟨rfl,
      (((unwrap_lazy_context Int Int Int Int ⟨[["Failure in case ", "1"]]⟩).1
        (some 1)).2.1 rfl).2.1,
      (((unwrap_lazy_context Int Int Int Int ⟨[["Failure in case ", "1"]]⟩).1
        (some 1)).2.1 rfl).2.2 ⟨[]⟩⟩,
    ⟨rfl,
      (((unwrap_lazy_context Int Int Int Int ⟨[["Failure in case ", "4"]]⟩).2.2.1
        ⟨0, fail_errc (fun _ => "failed")⟩).2.2 rfl).2.2,
      ((unwrap_lazy_context Int Int Int Int ⟨[["Failure in case ", "4"]]⟩).2.2.1
        ⟨0, fail_errc (fun _ => "failed")⟩).1⟩⟩

/-! ## Extraction after a handler that returns -/

/-- C13 : for the pair and for the tuples of two, three and four fields, for
every value `v` which is an error and every bundle whose handler returns on
the call it receives, the execution of `v >> handle_failure(h, args...)` is :
the test of `v`, one call of the handler on `(error_info v, args...)`, then
the extraction, and it returns the leading field(s) of `v`. -/
theorem extraction_after_returning_handler (T T1 T2 T3 α ε : Type)
    (handler : failure_handler α ε) (args : List α) :
    (∀ v : pair T error_code, (error_traits_pair T).indicates_error v = true →
      handler ((error_traits_pair T).error_info v) args = handler_result.returns →
      operator_shr (error_traits_pair T) v (handle_failure handler args) =
        ⟨[event.indicates_error true,
            event.handler ((error_traits_pair T).error_info v) args,
            event.extract_value],
          outcome.returned v.first⟩) ∧
    (∀ v : tuple2 T error_code, (error_traits_tuple2 T).indicates_error v = true →
      handler ((error_traits_tuple2 T).error_info v) args = handler_result.returns →
      operator_shr (error_traits_tuple2 T) v (handle_failure handler args) =
        ⟨[event.indicates_error true,
            event.handler ((error_traits_tuple2 T).error_info v) args,
            event.extract_value],
          outcome.returned v.get0⟩) ∧
    (∀ v : tuple3 T1 T2 error_code, (error_traits_tuple3 T1 T2).indicates_error v = true →
      handler ((error_traits_tuple3 T1 T2).error_info v) args = handler_result.returns →
      operator_shr (error_traits_tuple3 T1 T2) v (handle_failure handler args) =
        ⟨[event.indicates_error true,
            event.handler ((error_traits_tuple3 T1 T2).error_info v) args,
            event.extract_value],
          outcome.returned ⟨v.get0, v.get1⟩⟩) ∧
    (∀ v : tuple4 T1 T2 T3 error_code,
      (error_traits_tuple4 T1 T2 T3).indicates_error v = true →
      handler ((error_traits_tuple4 T1 T2 T3).error_info v) args = handler_result.returns →
      operator_shr (error_traits_tuple4 T1 T2 T3) v (handle_failure handler args) =
        ⟨[event.indicates_error true,
            event.handler ((error_traits_tuple4 T1 T2 T3).error_info v) args,
            event.extract_value],
          outcome.returned ⟨v.get0, v.get1, v.get2⟩⟩) :=
  ⟨fun v hv hh => operator_shr_failure_returns (error_traits_pair T) v
      (handle_failure handler args) v.first rfl hv hh rfl,
    fun v hv hh => operator_shr_failure_returns (error_traits_tuple2 T) v
      (handle_failure handler args) v.get0 rfl hv hh rfl,
    fun v hv hh => operator_shr_failure_returns (error_traits_tuple3 T1 T2) v
      (handle_failure handler args) ⟨v.get0, v.get1⟩ rfl hv hh rfl,
    fun v hv hh => operator_shr_failure_returns (error_traits_tuple4 T1 T2 T3) v
      (handle_failure handler args) ⟨v.get0, v.get1, v.get2⟩ rfl hv hh rfl⟩

/-- C13 at a concrete input : the pair `(7, fail_errc)` with a handler that
returns gives back `7` after one handler call. -/
theorem extraction_after_returning_handler_witness :
    (error_traits_pair Int).indicates_error ⟨7, fail_errc (fun _ => "failed")⟩ = true ∧
    (fun (_ : String) (_ : List Nat) => (handler_result.returns : handler_result Unit))
      ((error_traits_pair Int).error_info ⟨7, fail_errc (fun _ => "failed")⟩) [10, 20] =
      handler_result.returns ∧
    operator_shr (error_traits_pair Int) ⟨7, fail_errc (fun _ => "failed")⟩
      (handle_failure (fun _ _ => (handler_result.returns : handler_result Unit)) [10, 20]) =
      ⟨[event.indicates_error true,
          event.handler "From error category 'system' : failed" [10, 20],
          event.extract_value],
        outcome.returned 7⟩ :=
  ⟨rfl, rfl,
    (extraction_after_returning_handler Int Int Int Int Nat Unit
      (fun _ _ => handler_result.returns) [10, 20]).1
      ⟨7, fail_errc (fun _ => "failed")⟩ rfl rfl⟩

/-! ## The pair and the tuple of two fields -/

/-- C14 : for every value `x` and every status `s`, the adapter of the pair and
the adapter of the tuple of two fields give the same `contains_value`, the same
`indicates_error`, the same `extract_value` and the same `error_info` on
`(x, s)`, and for every bundle the executions of
`pair(x, s) >> handle_failure(h, args...)` and of
`tuple(x, s) >> handle_failure(h, args...)` are the same : same calls, same
handler arguments, same result. -/
theorem pair_tuple2_equivalent (T α ε : Type) (x : T) (s : error_code)
    (handler : failure_handler α ε) (args : List α) :
    (error_traits_pair T).contains_value = (error_traits_tuple2 T).contains_value ∧
    (error_traits_pair T).indicates_error ⟨x, s⟩ =
      (error_traits_tuple2 T).indicates_error ⟨x, s⟩ ∧
    (error_traits_pair T).extract_value rfl ⟨x, s⟩ =
      (error_traits_tuple2 T).extract_value rfl ⟨x, s⟩ ∧
    (error_traits_pair T).error_info ⟨x, s⟩ = (error_traits_tuple2 T).error_info ⟨x, s⟩ ∧
    operator_shr (error_traits_pair T) ⟨x, s⟩ (handle_failure handler args) =
      operator_shr (error_traits_tuple2 T) ⟨x, s⟩ (handle_failure handler args) :=
  ⟨rfl, rfl, rfl, rfl, rfl⟩

/-! ## The message of the unwrap handler for any producer -/

/-- Joining a list of strings starting with `str`. -/
theorem string_join_cons (str : String) (rest : List String) :
    String.join (str :: rest) = str ++ String.join rest := by
  have h := stream_all_eq ("" ++ str) rest
  unfold stream_all at h
  unfold String.join
  rw [List.foldl_cons, h, String.empty_append]
  rfl

/-- Running a producer on the recorder appends the sections the specification
describes. -/
theorem invoke_eq_sections (calls : List (List String)) (ss : String) :
    context_producer.invoke ⟨calls⟩ recorder ss = ss ++ context_sections_spec calls := by
  unfold context_producer.invoke
  induction calls generalizing ss with
  | nil => simp [context_sections_spec, String.join]
  | cons strs rest ih =>
    rw [List.foldl_cons, ih]
    cases strs with
    | nil => rfl
    | cons a l =>
      rw [recorder_fragments (a :: l) ss (List.cons_ne_nil a l)]
      have hsec : context_sections_spec ((a :: l) :: rest) =
          ("Context info : " ++ String.join (a :: l) ++ ".") ++
            context_sections_spec rest := by
        unfold context_sections_spec
        simp only [List.filter_cons, List.isEmpty_cons, Bool.not_false, if_true,
          List.map_cons, string_join_cons]
      rw [hsec]
      simp only [String.append_assoc]

/-- The message of the formatter is the one the specification words. -/
theorem formatter_call_eq_spec (info : String) (calls : List (List String)) :
    formatter_call info ⟨calls⟩ = ⟨unwrap_message_spec info calls⟩ := by
  unfold formatter_call unwrap_message_spec
  simp only [invoke_eq_sections, String.empty_append]

/-- C15 : for every description `d` and every producer calling the recorder
with the packs `l1..lk` (`k ≥ 0`), the unwrap handler throws the message
`Error message : d. ` followed, for each `li` in order which is not empty, by
`Context info : `, the fragments of `li` concatenated and a period; empty
packs add nothing.  So a producer that never calls the recorder gives the
message of one passing no fragment, a producer calling it twice with
fragments gives two sections, and the one fragment `""` gives the section
`Context info : .`. -/
theorem unwrap_message_sections (d : String) :
    (∀ calls : List (List String),
      formatter d [⟨calls⟩] = handler_result.throws ⟨unwrap_message_spec d calls⟩) ∧
    formatter d [⟨[]⟩] = formatter d [⟨[[]]⟩] ∧
    (∀ (a : String) (l : List String) (b : String) (m : List String),
      formatter d [⟨[a :: l, b :: m]⟩] =
        handler_result.throws
          ⟨"Error message : " ++ d ++ ". " ++
            ("Context info : " ++ String.join (a :: l) ++ ".") ++
            ("Context info : " ++ String.join (b :: m) ++ ".")⟩) ∧
    formatter d [⟨[[""]]⟩] =
      handler_result.throws ⟨"Error message : " ++ d ++ ". Context info : ."⟩ := by
  have hgen : ∀ calls : List (List String),
      formatter d [⟨calls⟩] = handler_result.throws ⟨unwrap_message_spec d calls⟩ := by
    intro calls
    have hcall : formatter d [⟨calls⟩] = handler_result.throws (formatter_call d ⟨calls⟩) :=
      rfl
    rw [hcall, formatter_call_eq_spec]
  refine ⟨hgen, rfl, ?_, ?_⟩
  · intro a l b m
    rw [hgen]
    have hsec : context_sections_spec [a :: l, b :: m] =
        ("Context info : " ++ String.join (a :: l) ++ ".") ++
          ("Context info : " ++ String.join (b :: m) ++ ".") := by
      unfold context_sections_spec
      simp only [List.filter_cons, List.filter_nil, List.isEmpty_cons, Bool.not_false,
        if_true, List.map_cons, List.map_nil, string_join_cons]
      rw [show String.join [] = "" from rfl, String.append_empty]
    unfold unwrap_message_spec
    rw [hsec, ← String.append_assoc]
  · have hlit : ". " ++ "Context info : ." = ". Context info : ." := by decide
    have hsec : context_sections_spec [[""]] = "Context info : ." := by decide
    rw [hgen]
    unfold unwrap_message_spec
    rw [hsec, String.append_assoc, hlit]

end hf
